import Mathlib

/-!
Shallow embedding of the chat API core in `src/main.py`: the conversation
store adapter (`crear_conversacion`, `agregar_mensaje`,
`obtener_historial_conversacion`) over an explicit in-memory document store,
and the `/chat` orchestrator (`chat`).

Modelling conventions:
* The MongoDB collections become two insertion-ordered lists inside `Store`.
* `datetime.now()` values become `Nat` timestamps supplied through `Env`;
  `uuid.uuid4()` values become fresh identifier strings supplied through `Env`
  (freshness/distinctness, which real UUIDs provide, appears as an explicit
  hypothesis where a theorem needs it).
* The completion capability (`claude_client.messages.create`) is an injected
  total function `generar : List ChatMsg → String`; theorems about successful
  requests quantify over it.  The "Claude/MongoDB not configured" 500 branches
  and the malformed-JSON branch are outside the modelled happy path: `chat` is
  the handler body once a JSON object (possibly with missing fields) arrived
  and both capabilities are configured.
* Mongo's `find(...).sort('timestamp', 1)` is modelled as a stable ascending
  sort on the insertion-ordered list; `count_documents`, `find_one` and
  `update_one` keep their query shapes (`find_one`/`update_one` act on the
  first matching document, as in MongoDB).
* The Python function `agregar_mensaje` has no `return` statement, hence
  returns `None`; its embedding returns `Option Nat` and always yields `none`.
-/

/-- A stored document of the `mensajes` collection. -/
structure Mensaje where
  id : String
  conversation_id : String
  uid : String
  role : String
  content : String
  timestamp : Nat
deriving Repr, DecidableEq

/-- A stored document of the `conversaciones` collection. -/
structure Conversacion where
  conversation_id : String
  uid : String
  created_at : Nat
  updated_at : Nat
  message_count : Nat
  title : String
  status : String
deriving Repr, DecidableEq

/-- The document store: both collections, each in insertion order. -/
structure Store where
  conversaciones : List Conversacion
  mensajes : List Mensaje
deriving Repr, DecidableEq

/-- One `{role, content}` entry of the prompt list sent to the completion API. -/
structure ChatMsg where
  role : String
  content : String
deriving Repr, DecidableEq

/-- The JSON body of a `/chat` request; a missing field is `none`. -/
structure ChatRequest where
  uid : Option String
  message : Option String
  conversation_id : Option String
deriving Repr, DecidableEq

/-- The success envelope returned by `/chat`. -/
structure ChatSuccess where
  conversation_id : String
  message : String
  response : String
  message_count : Nat
  is_new_conversation : Bool
  timestamp : Nat
deriving Repr, DecidableEq

/-- The HTTP outcome of a `/chat` request: an error with a status code, or the
success body (status 200). -/
inductive ChatResponse where
  | err (status : Nat) (error : String)
  | ok (body : ChatSuccess)
deriving Repr, DecidableEq

/-- HTTP status code of a response (200 on success). -/
def ChatResponse.status_code : ChatResponse → Nat
  | .err s _ => s
  | .ok _ => 200

/-- Per-request environment: the fresh identifiers `uuid.uuid4()` would mint
and the clock value `datetime.now()` would read. -/
structure Env where
  conv_id : String
  msg_id_user : String
  msg_id_assistant : String
  now : Nat
deriving Repr, DecidableEq

/-- Python `str.strip()`: drop leading and trailing whitespace characters. -/
def strip (s : String) : String :=
  String.mk (((s.data.dropWhile Char.isWhitespace).reverse.dropWhile Char.isWhitespace).reverse)

/-- Python slicing `s[:n]`: the first `n` characters. -/
def firstChars (s : String) (n : Nat) : String :=
  String.mk (s.data.take n)

/-- Mongo `count_documents({'conversation_id': cid})`. -/
def count_documents (mensajes : List Mensaje) (conversation_id : String) : Nat :=
  (mensajes.filter fun m => m.conversation_id == conversation_id).length

/-- Mongo `find_one({'conversation_id': cid})`: first matching document. -/
def find_one (conversaciones : List Conversacion) (conversation_id : String) :
    Option Conversacion :=
  conversaciones.find? fun c => c.conversation_id == conversation_id

/-- Mongo `update_one({'conversation_id': cid}, {'$set': ...})`: rewrite the
first matching document, leave the rest unchanged. -/
def update_one (conversaciones : List Conversacion) (conversation_id : String)
    (f : Conversacion → Conversacion) : List Conversacion :=
  match conversaciones with
  | [] => []
  | c :: rest =>
    if c.conversation_id = conversation_id then f c :: rest
    else c :: update_one rest conversation_id f

/-- Ordering of messages by `timestamp`, the key of `.sort('timestamp', 1)`. -/
def timestampLe (a b : Mensaje) : Prop := a.timestamp ≤ b.timestamp

instance : DecidableRel timestampLe := fun a b => Nat.decLe a.timestamp b.timestamp

instance : IsTotal Mensaje timestampLe := ⟨fun a b => Nat.le_total a.timestamp b.timestamp⟩

instance : IsTrans Mensaje timestampLe := ⟨fun _ _ _ => Nat.le_trans⟩

/-- Mongo `find(query).sort('timestamp', 1)` on the filtered list: a stable
ascending sort by timestamp. -/
def sortByTimestamp (l : List Mensaje) : List Mensaje :=
  List.insertionSort timestampLe l

/-- Python `crear_conversacion(uid)` from `src/main.py`: insert a fresh
conversation document and return its id. -/
def crear_conversacion (st : Store) (uid : String) (fresh_id : String) (now : Nat) :
    Store × String :=
  let conversacion : Conversacion :=
    { conversation_id := fresh_id
      uid := uid
      created_at := now
      updated_at := now
      message_count := 0
      title := "Nueva conversación"
      status := "active" }
  ({ st with conversaciones := st.conversaciones ++ [conversacion] }, fresh_id)

/-- Python `agregar_mensaje(conversation_id, mensaje_usuario, respuesta_claude, uid)`:
insert the user and assistant messages (same timestamp, user first), recount
the conversation's messages, and `$set` `updated_at`, `message_count` and —
exactly when the recount is 2 — the title derived from the user text.  The
Python function has no `return`, so the returned value is `none`. -/
def agregar_mensaje (st : Store) (conversation_id mensaje_usuario respuesta_claude uid : String)
    (id_user id_assistant : String) (timestamp : Nat) : Store × Option Nat :=
  let mensajes := st.mensajes ++
    [ { id := id_user
        conversation_id := conversation_id
        uid := uid
        role := "user"
        content := mensaje_usuario
        timestamp := timestamp },
      { id := id_assistant
        conversation_id := conversation_id
        uid := uid
        role := "assistant"
        content := respuesta_claude
        timestamp := timestamp } ]
  let nuevo_count := count_documents mensajes conversation_id
  let titulo :=
    if mensaje_usuario.length > 50 then firstChars mensaje_usuario 50 ++ "..." else mensaje_usuario
  let conversaciones := update_one st.conversaciones conversation_id fun c =>
    if nuevo_count = 2 then
      { c with updated_at := timestamp, message_count := nuevo_count, title := titulo }
    else
      { c with updated_at := timestamp, message_count := nuevo_count }
  ({ conversaciones := conversaciones, mensajes := mensajes }, none)

/-- Python `obtener_historial_conversacion(conversation_id)`: the stored
messages of the conversation, ascending by timestamp, projected to
`{role, content}`. -/
def obtener_historial_conversacion (st : Store) (conversation_id : String) : List ChatMsg :=
  let mensajes :=
    sortByTimestamp (st.mensajes.filter fun m => m.conversation_id == conversation_id)
  mensajes.map fun m => { role := m.role, content := m.content }

/-- Python truthiness of `data.get('conversation_id')`: `None` and the empty
string are falsy. -/
def falsy : Option String → Bool
  | none => true
  | some s => s == ""

/-- The tail of the `/chat` handler after the conversation is resolved:
assemble history, append the user message, call the completion capability,
persist the turn via `agregar_mensaje`, recount, and build the envelope.
`is_new` is the value of Python's `not data.get('conversation_id')`. -/
def chat_responder (st : Store) (conversation_id uid mensaje : String) (is_new : Bool)
    (env : Env) (generar : List ChatMsg → String) : ChatResponse × Store :=
  let historial := obtener_historial_conversacion st conversation_id ++
    [{ role := "user", content := mensaje }]
  let respuesta := generar historial
  let st2 := (agregar_mensaje st conversation_id mensaje respuesta uid
    env.msg_id_user env.msg_id_assistant env.now).1
  let nuevo_count := count_documents st2.mensajes conversation_id
  (ChatResponse.ok
    { conversation_id := conversation_id
      message := mensaje
      response := respuesta
      message_count := nuevo_count
      is_new_conversation := is_new
      timestamp := env.now }, st2)

/-- Python `/chat` handler body from `src/main.py` (capabilities configured,
JSON object parsed): validate the fields, resolve or create the conversation,
then delegate to `chat_responder`. -/
def chat (st : Store) (data : ChatRequest) (env : Env)
    (generar : List ChatMsg → String) : ChatResponse × Store :=
  match data.uid with
  | none => (ChatResponse.err 400 "Campo uid requerido", st)
  | some uid =>
    match data.message with
    | none => (ChatResponse.err 400 "Campo message requerido", st)
    | some mensaje =>
      if strip mensaje = "" then
        (ChatResponse.err 400 "Mensaje no puede estar vacío", st)
      else if falsy data.conversation_id then
        let (st1, conversation_id) := crear_conversacion st uid env.conv_id env.now
        chat_responder st1 conversation_id uid mensaje (falsy data.conversation_id) env generar
      else
        match find_one st.conversaciones (data.conversation_id.getD "") with
        | none => (ChatResponse.err 404 "Conversación no encontrada", st)
        | some conversacion =>
          if conversacion.uid ≠ uid then
            (ChatResponse.err 403 "No tienes acceso a esta conversación", st)
          else
            chat_responder st (data.conversation_id.getD "") uid mensaje
              (falsy data.conversation_id) env generar

/-- The `$set` update `agregar_mensaje` applies to the conversation document:
`updated_at`, the recomputed `message_count`, and — exactly when that count
is 2 — the title.  Identical to the update function inlined in
`agregar_mensaje`; named here so lemmas can state it. -/
def actualizar_conv (nuevo_count : Nat) (titulo : String) (ts : Nat) (c : Conversacion) :
    Conversacion :=
  if nuevo_count = 2 then
    { c with updated_at := ts, message_count := nuevo_count, title := titulo }
  else
    { c with updated_at := ts, message_count := nuevo_count }

/-- One persisted chat turn, as `agregar_mensaje` receives it. -/
structure Turno where
  mensaje_usuario : String
  respuesta_claude : String
  uid : String
  id_user : String
  id_assistant : String
  timestamp : Nat
deriving Repr, DecidableEq

/-- Apply one `agregar_mensaje` call for a turn (store part of the result). -/
def agregar_turno (st : Store) (conversation_id : String) (t : Turno) : Store :=
  (agregar_mensaje st conversation_id t.mensaje_usuario t.respuesta_claude t.uid
    t.id_user t.id_assistant t.timestamp).1

/-- Apply a sequence of `agregar_mensaje` calls on one conversation. -/
def aplicar_turnos (st : Store) (conversation_id : String) : List Turno → Store
  | [] => st
  | t :: ts => aplicar_turnos (agregar_turno st conversation_id t) conversation_id ts

/-- Concrete conversation used by witnesses. -/
def conv_u1 : Conversacion :=
  { conversation_id := "c1", uid := "u1", created_at := 0, updated_at := 0,
    message_count := 0, title := "Nueva conversación", status := "active" }

/-- The empty store. -/
def st0 : Store := { conversaciones := [], mensajes := [] }

/-- A store holding one conversation of user `u1` and no messages. -/
def st_c1 : Store := { conversaciones := [conv_u1], mensajes := [] }

/-- A stored user message of conversation `c1`. -/
def msg_u : Mensaje :=
  { id := "m1", conversation_id := "c1", uid := "u1", role := "user",
    content := "hola", timestamp := 7 }

/-- A stored assistant message of conversation `c1`. -/
def msg_a : Mensaje :=
  { id := "m2", conversation_id := "c1", uid := "u1", role := "assistant",
    content := "respuesta", timestamp := 7 }

/-- A conversation record for `c1` after its first turn. -/
def conv_c1_done : Conversacion :=
  { conversation_id := "c1", uid := "u1", created_at := 7, updated_at := 7,
    message_count := 2, title := "hola", status := "active" }

/-- A store where conversation `c1` already holds one completed turn. -/
def st_2 : Store := { conversaciones := [conv_c1_done], mensajes := [msg_u, msg_a] }

/-- A concrete per-request environment. -/
def env0 : Env := { conv_id := "c1", msg_id_user := "m1", msg_id_assistant := "m2", now := 7 }

/-- A second environment with a distinct fresh conversation id. -/
def env1 : Env := { conv_id := "c2", msg_id_user := "m3", msg_id_assistant := "m4", now := 8 }

/-- A concrete completion capability. -/
def generar0 : List ChatMsg → String := fun _ => "respuesta"

/-- A concrete valid request without `conversation_id`. -/
def data0 : ChatRequest := { uid := some "u1", message := some "hola", conversation_id := none }

/-- The success body produced by `chat st0 data0 env0 generar0`. -/
def body0 : ChatSuccess :=
  { conversation_id := "c1", message := "hola", response := "respuesta",
    message_count := 2, is_new_conversation := true, timestamp := 7 }

/-- The store produced by `chat st0 data0 env0 generar0`. -/
def st0' : Store := { conversaciones := [conv_c1_done], mensajes := [msg_u, msg_a] }

/-- A concrete turn used by witnesses. -/
def turno0 : Turno :=
  { mensaje_usuario := "hola", respuesta_claude := "respuesta", uid := "u1",
    id_user := "m1", id_assistant := "m2", timestamp := 7 }

theorem chat_responder_status (st : Store) (cid uid mensaje : String) (is_new : Bool)
    (env : Env) (generar : List ChatMsg → String) :
    (chat_responder st cid uid mensaje is_new env generar).1.status_code = 200 := rfl

theorem count_documents_append (l₁ l₂ : List Mensaje) (cid : String) :
    count_documents (l₁ ++ l₂) cid = count_documents l₁ cid + count_documents l₂ cid := by
  simp [count_documents, List.filter_append]

theorem count_documents_agregar (st : Store) (cid mu ra uid idu ida : String) (ts : Nat) :
    count_documents (agregar_mensaje st cid mu ra uid idu ida ts).1.mensajes cid
      = count_documents st.mensajes cid + 2 := by
  simp [agregar_mensaje, count_documents, List.filter_append]

theorem agregar_mensaje_mensajes (st : Store) (cid mu ra uid idu ida : String) (ts : Nat) :
    (agregar_mensaje st cid mu ra uid idu ida ts).1.mensajes = st.mensajes ++
      [ { id := idu, conversation_id := cid, uid := uid, role := "user",
          content := mu, timestamp := ts },
        { id := ida, conversation_id := cid, uid := uid, role := "assistant",
          content := ra, timestamp := ts } ] := rfl

theorem agregar_mensaje_conversaciones (st : Store) (cid mu ra uid idu ida : String) (ts : Nat) :
    (agregar_mensaje st cid mu ra uid idu ida ts).1.conversaciones =
      update_one st.conversaciones cid
        (actualizar_conv
          (count_documents (agregar_mensaje st cid mu ra uid idu ida ts).1.mensajes cid)
          (if mu.length > 50 then firstChars mu 50 ++ "..." else mu) ts) := rfl

theorem find_one_update_one (cs : List Conversacion) (cid : String)
    (f : Conversacion → Conversacion) (hf : ∀ c, (f c).conversation_id = c.conversation_id) :
    find_one (update_one cs cid f) cid = (find_one cs cid).map f := by
  induction cs with
  | nil => rfl
  | cons c rest ih =>
    by_cases h : c.conversation_id = cid
    · have h1 : ((f c).conversation_id == cid) = true := by rw [hf c]; exact beq_iff_eq.mpr h
      have h2 : (c.conversation_id == cid) = true := beq_iff_eq.mpr h
      simp only [update_one, if_pos h, find_one]
      rw [List.find?_cons_of_pos (p := fun x : Conversacion => x.conversation_id == cid) _ h1,
        List.find?_cons_of_pos (p := fun x : Conversacion => x.conversation_id == cid) _ h2]
      rfl
    · have h2 : (c.conversation_id == cid) = false := by simpa using h
      simp only [update_one, if_neg h, find_one]
      rw [List.find?_cons_of_neg (p := fun x : Conversacion => x.conversation_id == cid) _ (by simp [h2]),
        List.find?_cons_of_neg (p := fun x : Conversacion => x.conversation_id == cid) _ (by simp [h2])]
      exact ih

theorem find_one_agregar_mensaje (st : Store) (cid mu ra uid idu ida : String) (ts : Nat) :
    find_one (agregar_mensaje st cid mu ra uid idu ida ts).1.conversaciones cid
      = (find_one st.conversaciones cid).map
        (actualizar_conv
          (count_documents (agregar_mensaje st cid mu ra uid idu ida ts).1.mensajes cid)
          (if mu.length > 50 then firstChars mu 50 ++ "..." else mu) ts) := by
  rw [agregar_mensaje_conversaciones]
  exact find_one_update_one _ _ _ (fun c => by unfold actualizar_conv; split <;> rfl)

theorem chat_responder_ok (st : Store) (cid uid mensaje : String) (is_new : Bool) (env : Env)
    (generar : List ChatMsg → String) (body : ChatSuccess) (st' : Store)
    (h : chat_responder st cid uid mensaje is_new env generar = (ChatResponse.ok body, st')) :
    st' = (agregar_mensaje st cid mensaje
        (generar (obtener_historial_conversacion st cid ++ [{ role := "user", content := mensaje }]))
        uid env.msg_id_user env.msg_id_assistant env.now).1 ∧
    body = { conversation_id := cid
             message := mensaje
             response := generar
               (obtener_historial_conversacion st cid ++ [{ role := "user", content := mensaje }])
             message_count := count_documents st'.mensajes cid
             is_new_conversation := is_new
             timestamp := env.now } := by
  simp only [chat_responder, Prod.mk.injEq, ChatResponse.ok.injEq] at h
  obtain ⟨hb, hs⟩ := h
  subst hs
  exact ⟨rfl, hb.symm⟩

theorem chat_ok_cases (st : Store) (data : ChatRequest) (env : Env)
    (generar : List ChatMsg → String) (body : ChatSuccess) (st' : Store)
    (hok : chat st data env generar = (ChatResponse.ok body, st')) :
    ∃ uid mensaje, data.uid = some uid ∧ data.message = some mensaje ∧ ¬ strip mensaje = "" ∧
      ((falsy data.conversation_id = true ∧
        chat_responder (crear_conversacion st uid env.conv_id env.now).1 env.conv_id uid mensaje
          true env generar = (ChatResponse.ok body, st')) ∨
      (falsy data.conversation_id = false ∧
        ∃ conversacion,
          find_one st.conversaciones (data.conversation_id.getD "") = some conversacion ∧
          conversacion.uid = uid ∧
          chat_responder st (data.conversation_id.getD "") uid mensaje false env generar
            = (ChatResponse.ok body, st'))) := by
  unfold chat at hok
  split at hok
  · exact absurd hok (by simp)
  next uid hu =>
    split at hok
    · exact absurd hok (by simp)
    next mensaje hm =>
      split at hok
      · exact absurd hok (by simp)
      next hstrip =>
        by_cases hf : falsy data.conversation_id = true
        · rw [if_pos hf] at hok
          refine ⟨uid, mensaje, hu, hm, hstrip, Or.inl ⟨hf, ?_⟩⟩
          rw [hf] at hok
          simpa [crear_conversacion] using hok
        · have hf' : falsy data.conversation_id = false := by
            simpa using hf
          rw [if_neg hf] at hok
          rw [hf'] at hok
          split at hok
          · exact absurd hok (by simp)
          next conversacion hfind =>
            split at hok
            · exact absurd hok (by simp)
            next hne =>
              exact ⟨uid, mensaje, hu, hm, hstrip,
                Or.inr ⟨hf', conversacion, hfind, not_not.mp hne, hok⟩⟩

/-- C2: after every `agregar_mensaje` (appendTurn) call on an existing
conversation, the conversation's stored `message_count` equals the number of
stored messages whose `conversation_id` references that conversation, the
count being recomputed from the message store rather than incremented. -/
theorem C2_message_count_invariant (st : Store) (cid mu ra uid idu ida : String) (ts : Nat)
    (c : Conversacion) (h : find_one st.conversaciones cid = some c) :
    ∃ c', find_one (agregar_mensaje st cid mu ra uid idu ida ts).1.conversaciones cid = some c' ∧
      c'.message_count
        = count_documents (agregar_mensaje st cid mu ra uid idu ida ts).1.mensajes cid := by
  rw [find_one_agregar_mensaje, h, Option.map_some']
  refine ⟨_, rfl, ?_⟩
  unfold actualizar_conv
  split <;> rfl

/-- C4 counterexample: `agregar_mensaje` does not return the recomputed
message count — the Python function has no `return` statement, so its value
is `None` — refuting the claim at a concrete call whose recomputed count
is 2. -/
theorem C4_retorno_contra :
    (agregar_mensaje st_c1 "c1" "hola" "respuesta" "u1" "m1" "m2" 7).2 = none ∧
    count_documents (agregar_mensaje st_c1 "c1" "hola" "respuesta" "u1" "m1" "m2" 7).1.mensajes
      "c1" = 2 ∧
    (agregar_mensaje st_c1 "c1" "hola" "respuesta" "u1" "m1" "m2" 7).2 ≠
      some (count_documents
        (agregar_mensaje st_c1 "c1" "hola" "respuesta" "u1" "m1" "m2" 7).1.mensajes "c1") :=
  ⟨rfl, by decide, by decide⟩

/-- C4 (amended): `agregar_mensaje` returns no value (`none`); the
`message_count` of the `/chat` success envelope is recomputed by the
orchestrator with its own count query over the post-append store — which
equals the count `agregar_mensaje` recomputed, since both count the same
stored messages. -/
theorem C4_message_count_envelope (st : Store) (data : ChatRequest) (env : Env)
    (generar : List ChatMsg → String) (body : ChatSuccess) (st' : Store)
    (hok : chat st data env generar = (ChatResponse.ok body, st')) :
    body.message_count = count_documents st'.mensajes body.conversation_id ∧
    ∀ (st2 : Store) (cid mu ra uid2 idu ida : String) (ts : Nat),
      (agregar_mensaje st2 cid mu ra uid2 idu ida ts).2 = none := by
  refine ⟨?_, fun _ _ _ _ _ _ _ _ => rfl⟩
  obtain ⟨uid, mensaje, hu, hm, hs, hcase⟩ := chat_ok_cases st data env generar body st' hok
  rcases hcase with ⟨hf, hcr⟩ | ⟨hf, conversacion, hfind, huid, hcr⟩ <;>
  · obtain ⟨hst, hbody⟩ := chat_responder_ok _ _ _ _ _ _ _ _ _ hcr
    rw [hbody]

/-- C5: every `agregar_mensaje` call inserts exactly two messages into the
message store — one with role `user` carrying the user text, followed by one
with role `assistant` carrying the assistant text, both with the identical
timestamp, user first in insertion order. -/
theorem C5_dos_mensajes (st : Store) (cid mu ra uid idu ida : String) (ts : Nat) :
    ∃ m_user m_assistant : Mensaje,
      (agregar_mensaje st cid mu ra uid idu ida ts).1.mensajes
        = st.mensajes ++ [m_user, m_assistant] ∧
      m_user.role = "user" ∧ m_user.content = mu ∧
      m_assistant.role = "assistant" ∧ m_assistant.content = ra ∧
      m_user.timestamp = m_assistant.timestamp ∧
      m_user.conversation_id = cid ∧ m_assistant.conversation_id = cid :=
  ⟨_, _, rfl, rfl, rfl, rfl, rfl, rfl, rfl, rfl⟩

set_option maxRecDepth 4000 in
/-- C9: when `agregar_mensaje` sets the title (recomputed count = 2), the
title is the user text unchanged when it has at most 50 characters, and
otherwise its first 50 characters followed by the 3-character marker `...`;
for a first-turn message of 60 `a` characters the stored title has length
exactly 53. -/
theorem C9_titulo_truncado (st : Store) (cid mu ra uid idu ida : String) (ts : Nat)
    (c : Conversacion) (h : find_one st.conversaciones cid = some c)
    (h2 : count_documents (agregar_mensaje st cid mu ra uid idu ida ts).1.mensajes cid = 2) :
    ∃ c', find_one (agregar_mensaje st cid mu ra uid idu ida ts).1.conversaciones cid = some c' ∧
      (mu.length ≤ 50 → c'.title = mu) ∧
      (50 < mu.length → c'.title = firstChars mu 50 ++ "...") ∧
      (mu = String.mk (List.replicate 60 'a') → c'.title.length = 53) := by
  rw [find_one_agregar_mensaje, h, Option.map_some']
  refine ⟨_, rfl, ?_, ?_, ?_⟩
  · intro hle
    unfold actualizar_conv
    rw [if_pos h2]
    simp only [if_neg (by omega : ¬ mu.length > 50)]
  · intro hgt
    unfold actualizar_conv
    rw [if_pos h2]
    simp only [if_pos (by omega : mu.length > 50)]
  · intro hmu
    subst hmu
    unfold actualizar_conv
    rw [if_pos h2]
    show (if (String.mk (List.replicate 60 'a')).length > 50 then
        firstChars (String.mk (List.replicate 60 'a')) 50 ++ "..."
      else String.mk (List.replicate 60 'a')).length = 53
    decide

theorem update_one_length (cs : List Conversacion) (cid : String)
    (f : Conversacion → Conversacion) : (update_one cs cid f).length = cs.length := by
  induction cs with
  | nil => rfl
  | cons c rest ih => by_cases h : c.conversation_id = cid <;> simp [update_one, h, ih]

theorem agregar_mensaje_num_conversaciones (st : Store) (cid mu ra uid idu ida : String)
    (ts : Nat) :
    (agregar_mensaje st cid mu ra uid idu ida ts).1.conversaciones.length
      = st.conversaciones.length := by
  rw [agregar_mensaje_conversaciones]
  exact update_one_length _ _ _

theorem crear_num_conversaciones (st : Store) (uid fid : String) (now : Nat) :
    (crear_conversacion st uid fid now).1.conversaciones.length
      = st.conversaciones.length + 1 := by
  simp [crear_conversacion]

theorem chat_sin_cid (st : Store) (uid m : String) (env : Env)
    (generar : List ChatMsg → String) (hm : ¬ strip m = "") :
    chat st { uid := some uid, message := some m, conversation_id := none } env generar
      = chat_responder (crear_conversacion st uid env.conv_id env.now).1 env.conv_id uid m
          true env generar := by
  have hrfl : chat st { uid := some uid, message := some m, conversation_id := none } env generar
      = (if strip m = "" then (ChatResponse.err 400 "Mensaje no puede estar vacío", st)
         else chat_responder (crear_conversacion st uid env.conv_id env.now).1 env.conv_id uid m
           true env generar) := rfl
  rw [hrfl, if_neg hm]

/-- C1: for every successful `/chat` request, the message list submitted to
the completion capability is the stored history of the resolved conversation
sorted ascending by timestamp — a permutation of the stored messages, so
never truncated, and reordered only into timestamp order — with the single
element `{role: user, content: message}` appended as the final element; for a
newly created conversation (its fresh id unused in the message store) the
submitted list is exactly that one-element list. -/
theorem C1_prompt_enviado (st : Store) (data : ChatRequest) (env : Env)
    (generar : List ChatMsg → String) (body : ChatSuccess) (st' : Store)
    (hfresh : ∀ m ∈ st.mensajes, ¬ m.conversation_id = env.conv_id)
    (hok : chat st data env generar = (ChatResponse.ok body, st')) :
    body.response = generar
      ((sortByTimestamp (st.mensajes.filter
          fun m => m.conversation_id == body.conversation_id)).map
          (fun m => { role := m.role, content := m.content }) ++
        [{ role := "user", content := body.message }]) ∧
    List.Sorted timestampLe
      (sortByTimestamp (st.mensajes.filter
        fun m => m.conversation_id == body.conversation_id)) ∧
    (sortByTimestamp (st.mensajes.filter
        fun m => m.conversation_id == body.conversation_id)).Perm
      (st.mensajes.filter fun m => m.conversation_id == body.conversation_id) ∧
    (body.is_new_conversation = true →
      body.response = generar [{ role := "user", content := body.message }]) := by
  obtain ⟨uid, mensaje, hu, hm, hs, hcase⟩ := chat_ok_cases st data env generar body st' hok
  rcases hcase with ⟨hf, hcr⟩ | ⟨hf, conversacion, hfind, huid, hcr⟩
  · obtain ⟨hst, hbody⟩ := chat_responder_ok _ _ _ _ _ _ _ _ _ hcr
    subst hbody
    refine ⟨rfl, List.sorted_insertionSort timestampLe _,
      List.perm_insertionSort timestampLe _, ?_⟩
    intro _
    have hfil : st.mensajes.filter (fun m => m.conversation_id == env.conv_id) = [] := by
      rw [List.filter_eq_nil_iff]
      intro m hmem
      simpa using hfresh m hmem
    have hhist : obtener_historial_conversacion (crear_conversacion st uid env.conv_id env.now).1
        env.conv_id = [] := by
      show (sortByTimestamp ((crear_conversacion st uid env.conv_id env.now).1.mensajes.filter
          (fun m => m.conversation_id == env.conv_id))).map
          (fun m => ({ role := m.role, content := m.content } : ChatMsg)) = []
      rw [show (crear_conversacion st uid env.conv_id env.now).1.mensajes = st.mensajes from rfl,
        hfil]
      rfl
    show generar (obtener_historial_conversacion (crear_conversacion st uid env.conv_id env.now).1
        env.conv_id ++ [{ role := "user", content := mensaje }])
      = generar [{ role := "user", content := mensaje }]
    rw [hhist]
    rfl
  · obtain ⟨hst, hbody⟩ := chat_responder_ok _ _ _ _ _ _ _ _ _ hcr
    subst hbody
    refine ⟨rfl, List.sorted_insertionSort timestampLe _,
      List.perm_insertionSort timestampLe _, ?_⟩
    intro hfl
    simp at hfl

theorem titulo_preservado_turnos (cid : String) (turnos : List Turno) :
    ∀ (st : Store) (c : Conversacion), find_one st.conversaciones cid = some c →
      2 ≤ count_documents st.mensajes cid →
      ∃ c', find_one (aplicar_turnos st cid turnos).conversaciones cid = some c' ∧
        c'.title = c.title := by
  induction turnos with
  | nil => exact fun st c h _ => ⟨c, h, rfl⟩
  | cons t ts ih =>
    intro st c h h2
    have h4 : ¬ count_documents (agregar_mensaje st cid t.mensaje_usuario t.respuesta_claude
        t.uid t.id_user t.id_assistant t.timestamp).1.mensajes cid = 2 := by
      rw [count_documents_agregar]
      omega
    obtain ⟨c', hf', ht'⟩ := ih (agregar_turno st cid t)
      (actualizar_conv (count_documents (agregar_mensaje st cid t.mensaje_usuario
          t.respuesta_claude t.uid t.id_user t.id_assistant t.timestamp).1.mensajes cid)
        (if t.mensaje_usuario.length > 50 then firstChars t.mensaje_usuario 50 ++ "..."
          else t.mensaje_usuario) t.timestamp c)
      (by rw [agregar_turno, find_one_agregar_mensaje, h, Option.map_some'])
      (by rw [agregar_turno, count_documents_agregar]; omega)
    refine ⟨c', ?_, ?_⟩
    · simpa [aplicar_turnos] using hf'
    · rw [ht']
      unfold actualizar_conv
      rw [if_neg h4]

/-- C3: an `agregar_mensaje` call sets the conversation's title (derived from
that call's user text) iff the count recomputed in that call equals exactly
2; and once any call has run (the stored count is already at least 2), no
later sequence of `agregar_mensaje` calls ever changes the title again. -/
theorem C3_titulo_una_vez (st : Store) (cid : String) (c : Conversacion) (t : Turno)
    (turnos : List Turno) (h : find_one st.conversaciones cid = some c) :
    (∃ c', find_one (agregar_turno st cid t).conversaciones cid = some c' ∧
      c'.title = (if count_documents (agregar_turno st cid t).mensajes cid = 2 then
          (if t.mensaje_usuario.length > 50 then firstChars t.mensaje_usuario 50 ++ "..."
            else t.mensaje_usuario)
        else c.title)) ∧
    (2 ≤ count_documents st.mensajes cid →
      ∃ c'', find_one (aplicar_turnos st cid turnos).conversaciones cid = some c'' ∧
        c''.title = c.title) := by
  constructor
  · rw [agregar_turno, find_one_agregar_mensaje, h, Option.map_some']
    refine ⟨_, rfl, ?_⟩
    unfold actualizar_conv
    by_cases hc : count_documents (agregar_mensaje st cid t.mensaje_usuario t.respuesta_claude
        t.uid t.id_user t.id_assistant t.timestamp).1.mensajes cid = 2
    · rw [if_pos hc, if_pos hc]
    · rw [if_neg hc, if_neg hc]
  · exact fun h2 => titulo_preservado_turnos cid turnos st c h h2

/-- C6 counterexample: a `/chat` request whose `uid` field is present but
equal to the empty string, with a valid message, succeeds with status 200 —
the handler checks only field presence, so an empty `ownerId` is not rejected
as a validation error, refuting the claimed 400-iff condition. -/
theorem C6_uid_vacio_contra :
    (chat st0 { uid := some "", message := some "hola", conversation_id := none }
        env0 generar0).1.status_code = 200 ∧
    ¬ (chat st0 { uid := some "", message := some "hola", conversation_id := none }
        env0 generar0).1.status_code = 400 := by
  constructor <;> decide

/-- C6 (amended): a `/chat` request fails with a 400 validation error iff the
`uid` field is missing, the `message` field is missing, or the message is
blank after trimming whitespace; an empty but present `uid` is not rejected. -/
theorem C6_validacion_400 (st : Store) (data : ChatRequest) (env : Env)
    (generar : List ChatMsg → String) :
    (chat st data env generar).1.status_code = 400 ↔
      (data.uid = none ∨ data.message = none ∨
        ∃ m, data.message = some m ∧ strip m = "") := by
  unfold chat
  cases hu : data.uid with
  | none => simp [ChatResponse.status_code]
  | some uid =>
    cases hm : data.message with
    | none => simp [ChatResponse.status_code]
    | some mensaje =>
      by_cases hs : strip mensaje = ""
      · simp [hs, ChatResponse.status_code]
      · by_cases hf : falsy data.conversation_id = true
        · simp [hs, hf, crear_conversacion, chat_responder_status]
        · cases hfind : find_one st.conversaciones (data.conversation_id.getD "") with
          | none => simp [hs, hf, hfind, ChatResponse.status_code]
          | some conversacion =>
            by_cases ho : conversacion.uid = uid
            · simp [hs, hf, hfind, ho, chat_responder_status]
            · simp [hs, hf, hfind, ho, ChatResponse.status_code]

/-- C7: omitting `conversation_id` on `/chat` always creates a brand-new
conversation regardless of the caller's stored conversations — two successive
such calls from the same `uid` (with distinct fresh UUIDs, as real UUIDs are)
succeed, return the respective fresh ids, hence two distinct
`conversation_id` values, and both report `is_new_conversation = true`; in
general the flag equals the Python truthiness test `not data.get(
'conversation_id')`, i.e. it is true exactly when the caller did not supply a
non-empty `conversation_id` (per the code — and C10 — an empty string counts
as not supplied). -/
theorem C7_nueva_conversacion (st : Store) (uid m1 m2 : String) (envA envB : Env)
    (generar : List ChatMsg → String) (h1 : ¬ strip m1 = "") (h2 : ¬ strip m2 = "")
    (hid : ¬ envA.conv_id = envB.conv_id) :
    ∃ b1 st1 b2 st2,
      chat st { uid := some uid, message := some m1, conversation_id := none } envA generar
        = (ChatResponse.ok b1, st1) ∧
      chat st1 { uid := some uid, message := some m2, conversation_id := none } envB generar
        = (ChatResponse.ok b2, st2) ∧
      b1.conversation_id = envA.conv_id ∧ b2.conversation_id = envB.conv_id ∧
      ¬ b1.conversation_id = b2.conversation_id ∧
      b1.is_new_conversation = true ∧ b2.is_new_conversation = true ∧
      st1.conversaciones.length = st.conversaciones.length + 1 ∧
      (∀ (data : ChatRequest) (env : Env) (body : ChatSuccess) (stf : Store),
        chat st data env generar = (ChatResponse.ok body, stf) →
          body.is_new_conversation = falsy data.conversation_id) := by
  refine ⟨_, _, _, _, chat_sin_cid st uid m1 envA generar h1,
    chat_sin_cid _ uid m2 envB generar h2, rfl, rfl, hid, rfl, rfl, ?_, ?_⟩
  · rw [show ((agregar_mensaje (crear_conversacion st uid envA.conv_id envA.now).1 envA.conv_id
        m1 (generar (obtener_historial_conversacion
            (crear_conversacion st uid envA.conv_id envA.now).1 envA.conv_id ++
          [{ role := "user", content := m1 }])) uid envA.msg_id_user envA.msg_id_assistant
        envA.now).1.conversaciones.length)
      = (crear_conversacion st uid envA.conv_id envA.now).1.conversaciones.length
      from agregar_mensaje_num_conversaciones _ _ _ _ _ _ _ _]
    exact crear_num_conversaciones st uid envA.conv_id envA.now
  · intro data env body stf hok
    obtain ⟨uid2, mensaje, hu, hm, hs, hcase⟩ := chat_ok_cases st data env generar body stf hok
    rcases hcase with ⟨hf, hcr⟩ | ⟨hf, conversacion, hfind, huid, hcr⟩ <;>
    · obtain ⟨hst, hbody⟩ := chat_responder_ok _ _ _ _ _ _ _ _ _ hcr
      rw [hbody, hf]

/-- C8: a `/chat` request supplying a (non-empty) `conversation_id` yields
404 when no such conversation exists and 403 when it exists but is owned by a
different `uid`; in both cases the handler returns with the store exactly as
it was — no conversation created, no messages inserted, no metadata
updated. -/
theorem C8_404_403_sin_escrituras (st : Store) (env : Env) (generar : List ChatMsg → String)
    (uid m cid : String) (hm : ¬ strip m = "") (hcid : ¬ cid = "") :
    (find_one st.conversaciones cid = none →
      chat st { uid := some uid, message := some m, conversation_id := some cid } env generar
        = (ChatResponse.err 404 "Conversación no encontrada", st)) ∧
    (∀ c, find_one st.conversaciones cid = some c → ¬ c.uid = uid →
      chat st { uid := some uid, message := some m, conversation_id := some cid } env generar
        = (ChatResponse.err 403 "No tienes acceso a esta conversación", st)) := by
  have hfal : ¬ falsy (some cid) = true := by simp [falsy, hcid]
  have hstep : chat st { uid := some uid, message := some m, conversation_id := some cid }
      env generar
      = (if strip m = "" then (ChatResponse.err 400 "Mensaje no puede estar vacío", st)
         else if falsy (some cid) = true then
           chat_responder (crear_conversacion st uid env.conv_id env.now).1 env.conv_id uid m
             (falsy (some cid)) env generar
         else
           match find_one st.conversaciones cid with
           | none => (ChatResponse.err 404 "Conversación no encontrada", st)
           | some conversacion =>
             if conversacion.uid ≠ uid then
               (ChatResponse.err 403 "No tienes acceso a esta conversación", st)
             else chat_responder st cid uid m (falsy (some cid)) env generar) := rfl
  rw [if_neg hm, if_neg hfal] at hstep
  constructor
  · intro hfind
    rw [hstep, hfind]
  · intro c hfind hne
    rw [hstep, hfind]
    show (if c.uid ≠ uid then (ChatResponse.err 403 "No tienes acceso a esta conversación", st)
      else chat_responder st cid uid m (falsy (some cid)) env generar)
      = (ChatResponse.err 403 "No tienes acceso a esta conversación", st)
    rw [if_pos hne]

/-- C10: a `/chat` request whose `conversation_id` is a falsy value (the
empty string, or absent) is treated exactly as if the field were absent: the
handler performs no existence or ownership lookup, unconditionally creates a
new conversation, and reports `is_new_conversation = true`. -/
theorem C10_cid_falsy (st : Store) (uid m : String) (cid? : Option String) (env : Env)
    (generar : List ChatMsg → String) (hm : ¬ strip m = "") (hf : falsy cid? = true) :
    chat st { uid := some uid, message := some m, conversation_id := cid? } env generar
      = chat st { uid := some uid, message := some m, conversation_id := none } env generar ∧
    ∃ body st',
      chat st { uid := some uid, message := some m, conversation_id := cid? } env generar
        = (ChatResponse.ok body, st') ∧
      body.is_new_conversation = true ∧
      body.conversation_id = env.conv_id ∧
      st'.conversaciones.length = st.conversaciones.length + 1 := by
  have hstep : chat st { uid := some uid, message := some m, conversation_id := cid? } env generar
      = chat_responder (crear_conversacion st uid env.conv_id env.now).1 env.conv_id uid m
          true env generar := by
    have hrfl : chat st { uid := some uid, message := some m, conversation_id := cid? }
        env generar
        = (if strip m = "" then (ChatResponse.err 400 "Mensaje no puede estar vacío", st)
           else if falsy cid? = true then
             chat_responder (crear_conversacion st uid env.conv_id env.now).1 env.conv_id uid m
               (falsy cid?) env generar
           else
             match find_one st.conversaciones (cid?.getD "") with
             | none => (ChatResponse.err 404 "Conversación no encontrada", st)
             | some conversacion =>
               if conversacion.uid ≠ uid then
                 (ChatResponse.err 403 "No tienes acceso a esta conversación", st)
               else chat_responder st (cid?.getD "") uid m (falsy cid?) env generar) := rfl
    rw [hrfl, if_neg hm, if_pos hf, hf]
  refine ⟨?_, ?_⟩
  · rw [hstep, chat_sin_cid st uid m env generar hm]
  · refine ⟨_, _, hstep, rfl, rfl, ?_⟩
    rw [show ((agregar_mensaje (crear_conversacion st uid env.conv_id env.now).1 env.conv_id
        m (generar (obtener_historial_conversacion
            (crear_conversacion st uid env.conv_id env.now).1 env.conv_id ++
          [{ role := "user", content := m }])) uid env.msg_id_user env.msg_id_assistant
        env.now).1.conversaciones.length)
      = (crear_conversacion st uid env.conv_id env.now).1.conversaciones.length
      from agregar_mensaje_num_conversaciones _ _ _ _ _ _ _ _]
    exact crear_num_conversaciones st uid env.conv_id env.now

/-- Witness for C1: the concrete request `data0` on the empty store. -/
theorem C1_prompt_enviado_witness :
    body0.response = generar0
      ((sortByTimestamp (st0.mensajes.filter
          fun m => m.conversation_id == body0.conversation_id)).map
          (fun m => { role := m.role, content := m.content }) ++
        [{ role := "user", content := body0.message }]) ∧
    List.Sorted timestampLe
      (sortByTimestamp (st0.mensajes.filter
        fun m => m.conversation_id == body0.conversation_id)) ∧
    (sortByTimestamp (st0.mensajes.filter
        fun m => m.conversation_id == body0.conversation_id)).Perm
      (st0.mensajes.filter fun m => m.conversation_id == body0.conversation_id) ∧
    (body0.is_new_conversation = true →
      body0.response = generar0 [{ role := "user", content := body0.message }]) :=
  C1_prompt_enviado st0 data0 env0 generar0 body0 st0'
    (by intro m hm; simp [st0] at hm) (by decide)

/-- Witness for C2: one `agregar_mensaje` call on a stored conversation. -/
theorem C2_message_count_invariant_witness :
    ∃ c', find_one (agregar_mensaje st_c1 "c1" "hola" "respuesta" "u1" "m1" "m2" 7).1.conversaciones
        "c1" = some c' ∧
      c'.message_count = count_documents
        (agregar_mensaje st_c1 "c1" "hola" "respuesta" "u1" "m1" "m2" 7).1.mensajes "c1" :=
  C2_message_count_invariant st_c1 "c1" "hola" "respuesta" "u1" "m1" "m2" 7 conv_u1 (by decide)

/-- Witness for C3: a second turn on a conversation that already holds one
completed turn (count 2, title set) leaves the title unchanged. -/
theorem C3_titulo_una_vez_witness :
    (∃ c', find_one (agregar_turno st_2 "c1" turno0).conversaciones "c1" = some c' ∧
      c'.title = (if count_documents (agregar_turno st_2 "c1" turno0).mensajes "c1" = 2 then
          (if turno0.mensaje_usuario.length > 50 then
            firstChars turno0.mensaje_usuario 50 ++ "..." else turno0.mensaje_usuario)
        else conv_c1_done.title)) ∧
    (2 ≤ count_documents st_2.mensajes "c1" →
      ∃ c'', find_one (aplicar_turnos st_2 "c1" [turno0]).conversaciones "c1" = some c'' ∧
        c''.title = conv_c1_done.title) :=
  C3_titulo_una_vez st_2 "c1" conv_c1_done turno0 [turno0] (by decide)

/-- Witness for C4 (amended): the concrete request `data0`. -/
theorem C4_message_count_envelope_witness :
    body0.message_count = count_documents st0'.mensajes body0.conversation_id ∧
    (agregar_mensaje st0 "c1" "hola" "respuesta" "u1" "m1" "m2" 7).2 = none :=
  ⟨(C4_message_count_envelope st0 data0 env0 generar0 body0 st0' (by decide)).1,
   (C4_message_count_envelope st0 data0 env0 generar0 body0 st0' (by decide)).2
     st0 "c1" "hola" "respuesta" "u1" "m1" "m2" 7⟩

/-- Witness for C7: two concrete `/chat` calls without `conversation_id`. -/
theorem C7_nueva_conversacion_witness :
    ∃ b1 st1 b2 st2,
      chat st0 { uid := some "u1", message := some "hola", conversation_id := none } env0 generar0
        = (ChatResponse.ok b1, st1) ∧
      chat st1 { uid := some "u1", message := some "adios", conversation_id := none } env1 generar0
        = (ChatResponse.ok b2, st2) ∧
      b1.conversation_id = env0.conv_id ∧ b2.conversation_id = env1.conv_id ∧
      ¬ b1.conversation_id = b2.conversation_id ∧
      b1.is_new_conversation = true ∧ b2.is_new_conversation = true ∧
      st1.conversaciones.length = st0.conversaciones.length + 1 ∧
      (∀ (data : ChatRequest) (env : Env) (body : ChatSuccess) (stf : Store),
        chat st0 data env generar0 = (ChatResponse.ok body, stf) →
          body.is_new_conversation = falsy data.conversation_id) :=
  C7_nueva_conversacion st0 "u1" "hola" "adios" env0 env1 generar0
    (by decide) (by decide) (by decide)

/-- Witness for C8: a request from `u2` naming the conversation owned by
`u1`. -/
theorem C8_404_403_sin_escrituras_witness :
    (find_one st_c1.conversaciones "c1" = none →
      chat st_c1 { uid := some "u2", message := some "hola", conversation_id := some "c1" }
          env0 generar0
        = (ChatResponse.err 404 "Conversación no encontrada", st_c1)) ∧
    (∀ c, find_one st_c1.conversaciones "c1" = some c → ¬ c.uid = "u2" →
      chat st_c1 { uid := some "u2", message := some "hola", conversation_id := some "c1" }
          env0 generar0
        = (ChatResponse.err 403 "No tienes acceso a esta conversación", st_c1)) :=
  C8_404_403_sin_escrituras st_c1 env0 generar0 "u2" "hola" "c1" (by decide) (by decide)

set_option maxRecDepth 8000 in
/-- Witness for C9: the 60-character first-turn message. -/
theorem C9_titulo_truncado_witness :
    ∃ c', find_one (agregar_mensaje st_c1 "c1" (String.mk (List.replicate 60 'a')) "respuesta"
        "u1" "m1" "m2" 7).1.conversaciones "c1" = some c' ∧
      ((String.mk (List.replicate 60 'a')).length ≤ 50 →
        c'.title = String.mk (List.replicate 60 'a')) ∧
      (50 < (String.mk (List.replicate 60 'a')).length →
        c'.title = firstChars (String.mk (List.replicate 60 'a')) 50 ++ "...") ∧
      (String.mk (List.replicate 60 'a') = String.mk (List.replicate 60 'a') →
        c'.title.length = 53) :=
  C9_titulo_truncado st_c1 "c1" (String.mk (List.replicate 60 'a')) "respuesta" "u1" "m1" "m2" 7
    conv_u1 (by decide) (by decide)

/-- Witness for C10: a request with `conversation_id` equal to the empty
string on a store that already holds a conversation. -/
theorem C10_cid_falsy_witness :
    chat st_c1 { uid := some "u1", message := some "hola", conversation_id := some "" }
        env1 generar0
      = chat st_c1 { uid := some "u1", message := some "hola", conversation_id := none }
        env1 generar0 ∧
    ∃ body st',
      chat st_c1 { uid := some "u1", message := some "hola", conversation_id := some "" }
          env1 generar0
        = (ChatResponse.ok body, st') ∧
      body.is_new_conversation = true ∧
      body.conversation_id = env1.conv_id ∧
      st'.conversaciones.length = st_c1.conversaciones.length + 1 :=
  C10_cid_falsy st_c1 "u1" "hola" (some "") env1 generar0 (by decide) (by decide)
